import Mathlib

/-!
Verification of the F1-InsightX session data pipeline (`src/dashboard.py`).

The dashboard script loads a session lap table, applies a driver-code filter,
renders a sorted lap table with a CSV download, and computes quick analytics
(fastest lap, top-5 per-driver bests).  The definitions below embed those
operations; lap times are modelled in milliseconds as `Option Nat`, with
`none` standing for a null/NaT lap time.
-/

namespace F1InsightX

/-- Lap record of the session lap table: driver code, lap number, lap time in
milliseconds (`none` models a null/NaT lap time of an incomplete lap), tyre
compound, stint number and personal-best flag. -/
structure Lap where
  driver : String
  lapNumber : Nat
  lapTime : Option Nat
  compound : String
  stint : Nat
  isPersonalBest : Bool
deriving DecidableEq

/-- Lowercasing of a string, character by character, modelling the
`case=False` normalisation of the pandas substring match. -/
def lowerStr (s : String) : String :=
  ⟨s.data.map Char.toLower⟩

/-- Whitespace stripping at both ends of a string, modelling the Python call
`driver.strip()` at dashboard.py lines 120-121. -/
def strip (s : String) : String :=
  ⟨((s.data.dropWhile Char.isWhitespace).reverse.dropWhile Char.isWhitespace).reverse⟩

/-- Case-insensitive containment test, modelling the pandas call
`laps['Driver'].str.contains(q, case=False, na=False)` at dashboard.py
line 121 for a plain driver-code query (no regex metacharacters). -/
def containsCI (hay q : String) : Bool :=
  decide ((lowerStr q).data <:+: (lowerStr hay).data)

/-- Driver filter of dashboard.py lines 120-121: when the stripped query is
nonempty, keep exactly the laps whose driver code contains the query
case-insensitively; a blank query keeps every lap. -/
def filterDriver (q : String) (laps : List Lap) : List Lap :=
  if strip q = "" then laps
  else laps.filter (fun l => containsCI l.driver (strip q))

/-- Fastest-lap selection of dashboard.py line 233,
`laps.loc[laps['LapTime'].idxmin()]`: scan the laps, skipping null lap times,
and keep the lap with the smallest lap time, preferring the earlier lap on a
tie (pandas `idxmin` returns the first index attaining the minimum).  The
result is `none` when no lap has a non-null lap time, the case in which
`idxmin` has no index to return. -/
def best_lap : List Lap → Option Lap
  | [] => none
  | l :: ls =>
    match l.lapTime, best_lap ls with
    | none, r => r
    | some _, none => some l
    | some v, some b =>
      match b.lapTime with
      | none => some l
      | some bv => if v ≤ bv then some l else some b

/-- A lap returned by `best_lap` has a non-null lap time, and that time occurs
among the non-null lap times of the input. -/
theorem best_lap_time_mem {laps : List Lap} :
    ∀ {b : Lap}, best_lap laps = some b →
      ∃ bv, b.lapTime = some bv ∧ bv ∈ laps.filterMap Lap.lapTime := by
  induction laps with
  | nil => intro b h; simp [best_lap] at h
  | cons l ls ih =>
    intro b h
    cases hl : l.lapTime with
    | none =>
      simp only [best_lap, hl] at h
      obtain ⟨bv, hbt, hbm⟩ := ih h
      exact ⟨bv, hbt, by simp [List.filterMap_cons, hl, hbm]⟩
    | some v =>
      cases hbl : best_lap ls with
      | none =>
        simp only [best_lap, hl, hbl] at h
        obtain rfl : l = b := by simpa using h
        exact ⟨v, hl, by simp [List.filterMap_cons, hl]⟩
      | some b0 =>
        obtain ⟨bv0, hbt0, hbm0⟩ := ih hbl
        simp only [best_lap, hl, hbl, hbt0] at h
        by_cases hle : v ≤ bv0
        · rw [if_pos hle] at h
          obtain rfl : l = b := by simpa using h
          exact ⟨v, hl, by simp [List.filterMap_cons, hl]⟩
        · rw [if_neg hle] at h
          obtain rfl : b0 = b := by simpa using h
          refine ⟨bv0, hbt0, ?_⟩
          simp only [List.filterMap_cons, hl, List.mem_cons]
          right
          exact hbm0

/-- C1: for a lap set whose non-null lap times have minimum `m`, the fastest
lap returned by the quick-analytics aggregation is the first lap, in original
sequence order, whose lap time equals `m`; null lap times are excluded from
the minimum. -/
theorem best_lap_first_min (laps : List Lap) (m : Nat)
    (h : (laps.filterMap Lap.lapTime).minimum = WithTop.some m) :
    best_lap laps = laps.find? (fun l => decide (l.lapTime = some m)) := by
  induction laps with
  | nil => simp [List.minimum_nil] at h
  | cons l ls ih =>
    rw [List.minimum_eq_coe_iff] at h
    obtain ⟨hmem, hle⟩ := h
    cases hl : l.lapTime with
    | none =>
      have hfm : (l :: ls).filterMap Lap.lapTime = ls.filterMap Lap.lapTime := by
        simp [List.filterMap_cons, hl]
      rw [hfm] at hmem hle
      have ih2 := ih (List.minimum_eq_coe_iff.mpr ⟨hmem, hle⟩)
      have hfind : List.find? (fun l : Lap => decide (l.lapTime = some m)) (l :: ls)
          = List.find? (fun l : Lap => decide (l.lapTime = some m)) ls := by
        apply List.find?_cons_of_neg
        simp [hl]
      rw [hfind]
      simp only [best_lap, hl]
      exact ih2
    | some v =>
      have hfm : (l :: ls).filterMap Lap.lapTime = v :: ls.filterMap Lap.lapTime := by
        simp [List.filterMap_cons, hl]
      rw [hfm] at hmem hle
      have hmv : m ≤ v := hle v (by simp)
      by_cases hvm : v = m
      · have hfind : List.find? (fun l : Lap => decide (l.lapTime = some m)) (l :: ls)
            = some l := by
          apply List.find?_cons_of_pos
          simp [hl, hvm]
        rw [hfind]
        cases hbl : best_lap ls with
        | none => simp [best_lap, hl, hbl]
        | some b =>
          obtain ⟨bv, hbt, hbm⟩ := best_lap_time_mem hbl
          have hmbv : m ≤ bv := hle bv (by simp [hbm])
          simp only [best_lap, hl, hbl, hbt]
          rw [if_pos (by omega)]
      · have hmlt : m < v := lt_of_le_of_ne hmv (fun e => hvm e.symm)
        have hmem2 : m ∈ ls.filterMap Lap.lapTime := by
          rcases List.mem_cons.mp hmem with h1 | h1
          · exact absurd h1.symm hvm
          · exact h1
        have hle2 : ∀ b ∈ ls.filterMap Lap.lapTime, m ≤ b := fun b hb =>
          hle b (by simp [hb])
        have ih2 := ih (List.minimum_eq_coe_iff.mpr ⟨hmem2, hle2⟩)
        obtain ⟨lm, hlmm, hlmt⟩ := List.mem_filterMap.mp hmem2
        have hsome : (ls.find? (fun l : Lap => decide (l.lapTime = some m))).isSome := by
          rw [List.find?_isSome]
          exact ⟨lm, hlmm, by simp [hlmt]⟩
        obtain ⟨b, hb⟩ := Option.isSome_iff_exists.mp hsome
        have hbt : b.lapTime = some m := by
          have := List.find?_some hb
          simpa using this
        have hbl : best_lap ls = some b := ih2.trans hb
        have hfind : List.find? (fun l : Lap => decide (l.lapTime = some m)) (l :: ls)
            = List.find? (fun l : Lap => decide (l.lapTime = some m)) ls := by
          apply List.find?_cons_of_neg
          simp [hl, hvm]
        rw [hfind, hb]
        simp only [best_lap, hl, hbl, hbt]
        rw [if_neg (by omega)]

/-- Concrete laps of the spec scenario: HAM 92.5s, HAM 91.0s, VER 90.8s, in
tenths of a second scaled to milliseconds. -/
def hamLap1 : Lap := ⟨"HAM", 1, some 92500, "Soft", 1, false⟩

/-- Second HAM lap of the spec scenario. -/
def hamLap2 : Lap := ⟨"HAM", 2, some 91000, "Soft", 1, true⟩

/-- VER lap of the spec scenario, the overall fastest. -/
def verLap1 : Lap := ⟨"VER", 1, some 90800, "Medium", 1, true⟩

/-- Witness for C1 on the spec scenario: the minimum non-null lap time is
90800 and the aggregation picks the first lap attaining it. -/
theorem best_lap_first_min_witness :
    best_lap [hamLap1, hamLap2, verLap1]
      = [hamLap1, hamLap2, verLap1].find? (fun l => decide (l.lapTime = some 90800)) :=
  best_lap_first_min [hamLap1, hamLap2, verLap1] 90800 (by decide)

/-- C6: the case-insensitive driver-code filter of dashboard.py lines 120-121
is idempotent: applying it a second time with the same query leaves the lap
list unchanged. -/
theorem filterDriver_idempotent (q : String) (laps : List Lap) :
    filterDriver q (filterDriver q laps) = filterDriver q laps := by
  unfold filterDriver
  by_cases h : strip q = ""
  · simp [h]
  · simp only [h, if_false, List.filter_filter, Bool.and_self]

/-- Ordering used by `sort_values` on nullable lap times: numeric order on
non-null times, with null (NaT) sorted last, matching the pandas default
`na_position` of `last`. -/
def lapTimeLE : Option Nat → Option Nat → Bool
  | some a, some b => decide (a ≤ b)
  | some _, none => true
  | none, some _ => false
  | none, none => true

/-- Transitivity of the nullable lap-time order. -/
theorem lapTimeLE_trans (a b c : Option Nat) (hab : lapTimeLE a b = true)
    (hbc : lapTimeLE b c = true) : lapTimeLE a c = true := by
  cases a <;> cases b <;> cases c <;> simp_all [lapTimeLE]
  omega

/-- Totality of the nullable lap-time order. -/
theorem lapTimeLE_total (a b : Option Nat) :
    (lapTimeLE a b || lapTimeLE b a) = true := by
  cases a <;> cases b <;> simp_all [lapTimeLE]
  omega

/-- Sortedness of an insertion sort driven by a boolean comparison that is
transitive and total. -/
theorem pairwise_insertionSort (le : α → α → Bool)
    (htrans : ∀ a b c, le a b = true → le b c = true → le a c = true)
    (htotal : ∀ a b, (le a b || le b a) = true) (l : List α) :
    List.Pairwise (fun a b => le a b = true)
      (List.insertionSort (fun a b => le a b = true) l) := by
  haveI : IsTotal α (fun a b => le a b = true) := by
    constructor
    intro a b
    rcases Bool.or_eq_true_iff.mp (htotal a b) with h | h
    · exact Or.inl h
    · exact Or.inr h
  haveI : IsTrans α (fun a b => le a b = true) := by
    constructor
    intro a b c
    exact htrans a b c
  exact List.sorted_insertionSort _ l

/-- Top-5 per-driver best-lap table of dashboard.py line 236,
`laps.groupby('Driver')['LapTime'].min().sort_values().head(5)`: one row per
distinct driver holding the minimum of that driver's non-null lap times
(`none` when every lap of the driver has a null time, as pandas `min` yields
NaT there), sorted ascending with nulls last and truncated to five rows. -/
def best_by_driver (laps : List Lap) : List (String × Option Nat) :=
  let drivers := (laps.map Lap.driver).dedup
  let table := drivers.map (fun d =>
    (d, ((laps.filter (fun l => l.driver == d)).filterMap Lap.lapTime).min?))
  (List.insertionSort (fun a b => lapTimeLE a.2 b.2 = true) table).take 5

/-- C5: for every lap set, the top-5-by-best-lap table is sorted ascending by
lap time (nulls last) and its length is the minimum of 5 and the number of
distinct drivers in the set. -/
theorem best_by_driver_sorted_top5 (laps : List Lap) :
    (best_by_driver laps).length = min 5 (laps.map Lap.driver).toFinset.card ∧
    List.Pairwise (fun a b : String × Option Nat => lapTimeLE a.2 b.2 = true)
      (best_by_driver laps) := by
  constructor
  · simp [best_by_driver, List.length_take, List.length_insertionSort,
      List.length_map, List.card_toFinset]
  · apply List.Pairwise.sublist (List.take_sublist 5 _)
    exact pairwise_insertionSort
      (fun a b : String × Option Nat => lapTimeLE a.2 b.2)
      (fun a b c => lapTimeLE_trans a.2 b.2 c.2)
      (fun a b => lapTimeLE_total a.2 b.2) _

/-- When every lap of the list has a null lap time, `best_lap` has no lap to
return. -/
theorem best_lap_none_of_all_null {laps : List Lap}
    (h : ∀ l ∈ laps, l.lapTime = none) : best_lap laps = none := by
  induction laps with
  | nil => rfl
  | cons l ls ih =>
    have hl : l.lapTime = none := h l (by simp)
    have hls := ih (fun x hx => h x (by simp [hx]))
    simp [best_lap, hl, hls]

/-- Quick-analytics block of dashboard.py lines 232-237: when the filtered lap
list is nonempty, compute the fastest lap (line 233) and the top-5 per-driver
best-lap table (line 236); an empty list skips the block (`ok none`).  The
error branch models the pandas behaviour of line 233 on a lap table whose
`LapTime` column is entirely null: `Series.idxmin` has no index to return and
the lookup raises, aborting the script with an uncaught exception. -/
def quick_analytics (laps : List Lap) :
    Except String (Option (Lap × List (String × Option Nat))) :=
  if laps.isEmpty then Except.ok none
  else
    match best_lap laps with
    | some b => Except.ok (some (b, best_by_driver laps))
    | none => Except.error "ValueError: attempt to get argmin of an empty sequence"

/-- Null-time lap used in the all-null counterexample. -/
def hamNullLap : Lap := ⟨"HAM", 1, none, "Soft", 1, false⟩

/-- Second null-time lap, for the witness input. -/
def verNullLap : Lap := ⟨"VER", 1, none, "Medium", 1, false⟩

/-- C4 counterexample: on a non-empty lap set whose only lap has a null lap
time, the aggregation of dashboard.py line 233 raises (pandas `idxmin` on an
all-null series) instead of returning an explicit undefined result. -/
theorem quick_analytics_all_null_raises_example :
    quick_analytics [hamNullLap]
      = Except.error "ValueError: attempt to get argmin of an empty sequence" := by
  rfl

/-- C4 amended: for every non-empty lap set in which every lap has a null lap
time, the aggregation raises an uncaught error (it does not return a lap, but
neither does it return an explicit undefined result). -/
theorem quick_analytics_all_null_raises (laps : List Lap) (hne : laps ≠ [])
    (hnull : ∀ l ∈ laps, l.lapTime = none) :
    quick_analytics laps
      = Except.error "ValueError: attempt to get argmin of an empty sequence" := by
  have hbl : best_lap laps = none := best_lap_none_of_all_null hnull
  have hemp : laps.isEmpty = false := by
    cases laps with
    | nil => exact absurd rfl hne
    | cons a as => rfl
  simp [quick_analytics, hemp, hbl]

/-- Witness for the amended C4 on a two-lap all-null input. -/
theorem quick_analytics_all_null_raises_witness :
    quick_analytics [hamNullLap, verNullLap]
      = Except.error "ValueError: attempt to get argmin of an empty sequence" :=
  quick_analytics_all_null_raises [hamNullLap, verNullLap] (by decide) (by decide)

/-- Lap-table construction of dashboard.py lines 119-132 as a function of the
sidebar selections: the session laps are copied and filtered by the driver
query (lines 120-121).  The lap-filter mode of line 74 and the tyre choice of
line 75 are accepted here because the sidebar offers them, but the script
never applies either of them to the table, so they do not influence the
result. -/
def filtered_laps (sessionLaps : List Lap)
    (driverQ lapFilterMode tyreChoice : String) : List Lap :=
  filterDriver driverQ sessionLaps

/-- C3 evaluated at failing inputs: selecting the fastest-lap-only mode keeps
both HAM laps rather than only the fastest one, and selecting the tyre-stint
mode with compound Soft keeps the Medium-compound VER lap, because the script
never applies either filter mode. -/
theorem lap_filter_mode_ignored :
    filtered_laps [hamLap1, hamLap2] "" "Fastest lap only" "All"
        = [hamLap1, hamLap2] ∧
      filtered_laps [hamLap1, verLap1] "" "Stint filter (by tyre)" "Soft"
        = [hamLap1, verLap1] :=
  ⟨by decide, by decide⟩

/-- Strided selection with a countdown: an element is kept when the countdown
is zero, after which the countdown restarts at `s - 1`; otherwise it is
dropped and the countdown decreases.  Starting the countdown at zero keeps
exactly the elements at indices `0, s, 2*s, ...`, which is the effect of the
pandas slice `tel.iloc[::s]`. -/
def strideAux (s : Nat) : Nat → List α → List α
  | _, [] => []
  | 0, x :: xs => x :: strideAux s (s - 1) xs
  | c + 1, _ :: xs => strideAux s c xs

/-- Strided slice `tel.iloc[::s]` of dashboard.py line 172: every `s`-th
sample starting at index 0. -/
def ilocStride (tel : List α) (s : Nat) : List α :=
  strideAux s 0 tel

/-- Stride computed at dashboard.py line 172,
`max(1, int(len(tel)/telemetry_rate))`: the floor of the length over the
target point count, but at least one. -/
def stride (len n : Nat) : Nat :=
  max 1 (len / n)

/-- Telemetry downsampling of dashboard.py lines 171-172: when a target point
count is selected (a non-`none`, nonzero value of the sidebar option), keep
every `stride`-th sample of the telemetry sequence; otherwise the `if
telemetry_rate:` guard skips the slicing and the sequence is unchanged. -/
def downsample (tel : List α) (rate : Option Nat) : List α :=
  match rate with
  | none => tel
  | some n => if n = 0 then tel else ilocStride tel (stride tel.length n)

/-- Element characterisation of the strided selection: with countdown `c`, the
element at index `i` of the output is the element at index `c + i * s` of the
input. -/
theorem strideAux_getElem? (s : Nat) (hs : 1 ≤ s) :
    ∀ (l : List α) (c i : Nat), (strideAux s c l)[i]? = l[c + i * s]? := by
  intro l
  induction l with
  | nil => intro c i; simp [strideAux]
  | cons x xs ih =>
    intro c i
    cases c with
    | zero =>
      cases i with
      | zero => simp [strideAux]
      | succ j =>
        have h1 : (strideAux s (s - 1) xs)[j]? = xs[(s - 1) + j * s]? := ih (s - 1) j
        have h2 : (x :: xs)[0 + (j + 1) * s]? = xs[(s - 1) + j * s]? := by
          have he : 0 + (j + 1) * s = ((s - 1) + j * s) + 1 := by
            cases s with
            | zero => omega
            | succ t => ring_nf; omega
          rw [he]
          simp
        simpa [strideAux, h1] using h2.symm
    | succ c0 =>
      have h1 : (strideAux s c0 xs)[i]? = xs[c0 + i * s]? := ih c0 i
      have h2 : (x :: xs)[(c0 + 1) + i * s]? = xs[c0 + i * s]? := by
        have he : (c0 + 1) + i * s = (c0 + i * s) + 1 := by omega
        rw [he]
        simp
      simpa [strideAux, h1] using h2.symm

/-- Length of the strided selection: with countdown `c` it keeps one element
out of every `s`, namely the ceiling of `(length - c) / s`. -/
theorem strideAux_length (s : Nat) (hs : 1 ≤ s) :
    ∀ (l : List α) (c : Nat), (strideAux s c l).length = (l.length - c + s - 1) / s := by
  intro l
  induction l with
  | nil =>
    intro c
    simp only [strideAux, List.length_nil]
    rw [Nat.div_eq_of_lt (by omega)]
  | cons x xs ih =>
    intro c
    cases c with
    | zero =>
      have h1 := ih (s - 1)
      simp only [strideAux, List.length_cons, h1]
      have he2 : xs.length + 1 - 0 + s - 1 = xs.length + s := by omega
      rw [he2, Nat.add_div_right _ (by omega)]
      congr 1
      by_cases hc : s - 1 ≤ xs.length
      · have he : xs.length - (s - 1) + s - 1 = xs.length := by omega
        rw [he]
      · rw [Nat.div_eq_of_lt (by omega), Nat.div_eq_of_lt (by omega)]
    | succ c0 =>
      have h1 := ih c0
      simp only [strideAux, List.length_cons, h1]
      have he : xs.length + 1 - (c0 + 1) = xs.length - c0 := by omega
      rw [he]

/-- C2: for a telemetry sequence and a target point count `n` with
`0 < n < length`, downsampling keeps exactly the samples at indices
`0, stride, 2*stride, ...` where `stride = max(1, floor(length / n))`, and the
result has length `ceil(length / stride)`; a null target leaves the sequence
unchanged. -/
theorem downsample_spec (tel : List α) (n : Nat) (h0 : 0 < n)
    (h1 : n < tel.length) :
    (downsample tel (some n)).length
        = (tel.length + stride tel.length n - 1) / stride tel.length n
      ∧ (∀ i : Nat, (downsample tel (some n))[i]?
          = tel[i * stride tel.length n]?)
      ∧ downsample tel none = tel := by
  have hs : 1 ≤ stride tel.length n := le_max_left 1 _
  have hn : ¬(n = 0) := by omega
  refine ⟨?_, ?_, rfl⟩
  · simp only [downsample, if_neg hn, ilocStride]
    rw [strideAux_length _ hs tel 0, Nat.sub_zero]
  · intro i
    simp only [downsample, if_neg hn, ilocStride]
    rw [strideAux_getElem? _ hs tel 0 i]
    simp

/-- Concrete seven-point telemetry trace for the C2 witness. -/
def telTrace : List Nat := [10, 20, 30, 40, 50, 60, 70]

/-- Witness for C2 at a seven-sample trace and target 3: the stride is 2, the
result keeps four samples, sample 1 of the output is sample 2 of the input,
and a null target is the identity. -/
theorem downsample_spec_witness :
    (downsample telTrace (some 3)).length
        = (telTrace.length + stride telTrace.length 3 - 1) / stride telTrace.length 3
      ∧ (downsample telTrace (some 3))[1]? = telTrace[1 * stride telTrace.length 3]?
      ∧ downsample telTrace none = telTrace :=
  ⟨(downsample_spec telTrace 3 (by decide) (by decide)).1,
   (downsample_spec telTrace 3 (by decide) (by decide)).2.1 1,
   (downsample_spec telTrace 3 (by decide) (by decide)).2.2⟩

/-- Rectangular table of rendered cells: a list of column names and one list
of cell strings per row, aligned with the columns.  Models the pandas
DataFrame as consumed by the CSV export. -/
structure Table where
  cols : List String
  rows : List (List String)

/-- Summary columns of dashboard.py line 127. -/
def summary_cols : List String :=
  ["Time", "Driver", "LapNumber", "LapTime", "Compound", "Stint", "IsPersonalBest"]

/-- Column selection of dashboard.py line 128,
`[c for c in summary_cols if c in laps.columns]`: the summary columns that are
present in the table, kept in summary order. -/
def display_cols (cols : List String) : List String :=
  summary_cols.filter (fun c => cols.contains c)

/-- Cell lookup by column name: the entry of the row at the position of the
column, or the empty string for an absent column. -/
def cellAt (cols row : List String) (c : String) : String :=
  match cols.findIdx? (fun x => x == c) with
  | some i => row.getD i ""
  | none => ""

/-- Column projection `df[sel]`: the table restricted to the selected columns,
each row re-ordered to the selection. -/
def selectCols (t : Table) (sel : List String) : Table :=
  ⟨sel, t.rows.map (fun r => sel.map (cellAt t.cols r))⟩

/-- Concatenation of lines, each terminated by a newline, matching the string
produced by `df.to_csv(index=False)` once the cells hold the rendered
values. -/
def unlines : List String → String
  | [] => ""
  | a :: r => a ++ "\n" ++ unlines r

/-- CSV rendering of dashboard.py line 49, `df.to_csv(index=False)`: the
comma-joined header line followed by one comma-joined line per row. -/
def to_csv (t : Table) : String :=
  unlines (String.intercalate "," t.cols :: t.rows.map (String.intercalate ","))

/-- UTF-8 encoding of the CSV text, modelling `csv.encode()` at dashboard.py
line 50 inside `get_table_download_link` (Python `str.encode` defaults to
UTF-8); the base64 wrapping of the data URI is applied to these bytes. -/
def csv_bytes (s : String) : ByteArray :=
  s.toUTF8

/-- Download payload of `get_table_download_link` (dashboard.py lines 48-52)
for a lap table: the UTF-8 bytes of its CSV rendering. -/
def get_table_download_link (t : Table) : ByteArray :=
  csv_bytes (to_csv t)

/-- Projection to the displayed columns, `laps[display_cols]` of dashboard.py
lines 129 and 132. -/
def export_table (t : Table) : Table :=
  selectCols t (display_cols t.cols)

/-- C7: the CSV export of any filtered lap table starts with the header row
holding exactly the summary columns present in the table, in summary order,
comma-delimited, and the payload is the UTF-8 encoding of that text. -/
theorem csv_export_header (t : Table) :
    ∃ rest : String,
      get_table_download_link (export_table t)
        = csv_bytes (String.intercalate ","
            (summary_cols.filter (fun c => t.cols.contains c)) ++ "\n" ++ rest) :=
  ⟨unlines ((export_table t).rows.map (String.intercalate ",")), rfl⟩

/-- Columns of the modelled lap table (the spec's `Lap` fields; the provider's
`Time` column is not part of the model, exercising the present-columns
restriction of the export). -/
def lap_columns : List String :=
  ["Driver", "LapNumber", "LapTime", "Compound", "Stint", "IsPersonalBest"]

/-- Rendering of one lap cell by column name. -/
def lapCell (l : Lap) (c : String) : String :=
  if c == "Driver" then l.driver
  else if c == "LapNumber" then toString l.lapNumber
  else if c == "LapTime" then
    match l.lapTime with
    | some v => toString v
    | none => ""
  else if c == "Compound" then l.compound
  else if c == "Stint" then toString l.stint
  else if c == "IsPersonalBest" then
    if l.isPersonalBest then "True" else "False"
  else ""

/-- DataFrame of a lap list: one row per lap, in list order. -/
def laps_table (laps : List Lap) : Table :=
  ⟨lap_columns, laps.map (fun l => lap_columns.map (lapCell l))⟩

/-- Lap-time sort of dashboard.py line 129, `sort_values('LapTime')`:
ascending by lap time with null times last (the pandas `na_position`
default). -/
def sort_values_lapTime (laps : List Lap) : List Lap :=
  List.insertionSort (fun a b => lapTimeLE a.lapTime b.lapTime = true) laps

/-- Rows of the on-screen lap table of dashboard.py line 129: the laps sorted
by lap time before projection to the displayed columns. -/
def displayed_table (laps : List Lap) : Table :=
  export_table (laps_table (sort_values_lapTime laps))

/-- Rows handed to the CSV download at dashboard.py line 132: the projection
of the filtered laps without any sorting. -/
def exported_rows (laps : List Lap) : List (List String) :=
  (export_table (laps_table laps)).rows

/-- C10: the exported CSV rows are the filtered laps in their original
recording order (one projected row per lap, in list order), while the
on-screen table is sorted by lap time — at the two-lap example the two row
orders differ. -/
theorem csv_rows_original_order :
    (∀ laps : List Lap,
        exported_rows laps = laps.map (fun l =>
          (display_cols lap_columns).map (cellAt lap_columns (lap_columns.map (lapCell l)))))
      ∧ exported_rows [hamLap1, verLap1] ≠ (displayed_table [hamLap1, verLap1]).rows := by
  constructor
  · intro laps
    simp [exported_rows, export_table, selectCols, laps_table, List.map_map]
  · decide

/-- Session payload: the lap table owned by the loaded session object. -/
structure Session where
  laps : List Lap

/-- User-facing message built by the handler at dashboard.py line 36,
`st.error(f"Error loading FastF1 session: {e}")`, from the reason text of the
caught exception. -/
def error_message (e : String) : String :=
  "Error loading FastF1 session: " ++ e

/-- Session loader of dashboard.py lines 28-37: the provider call
`fastf1.get_session(...)` followed by `session_obj.load()` either returns a
payload or raises (network or provider error, session not yet available,
unsupported session kind), here abstracted as an `Except` outcome.  The
handler catches every exception, reports the reason and returns `None`; a
success returns the payload with no message. -/
def load_fastf1_session (fetch : Except String Session) :
    Option Session × Option String :=
  match fetch with
  | Except.ok s => (some s, none)
  | Except.error e => (none, some (error_message e))

/-- The reported message determines the reason: two failure kinds with
different reason texts yield different user-facing messages. -/
theorem error_message_inj {a b : String} (h : error_message a = error_message b) :
    a = b := by
  have hd := congrArg String.data h
  rw [show error_message a = "Error loading FastF1 session: " ++ a from rfl,
    show error_message b = "Error loading FastF1 session: " ++ b from rfl,
    String.data_append, String.data_append] at hd
  cases a
  cases b
  exact congrArg String.mk (List.append_cancel_left hd)

/-- C8: every provider failure is caught inside the session loader and turned
into a null payload together with a reported reason; failure kinds with
distinct reasons produce distinct user-facing messages; and a null payload
only ever arises from a failure that carries its reported message — nothing
escapes unhandled. -/
theorem load_session_failure_handling (e1 e2 : String) (hne : e1 ≠ e2) :
    load_fastf1_session (Except.error e1) = (none, some (error_message e1))
      ∧ error_message e1 ≠ error_message e2
      ∧ ∀ fetch : Except String Session,
          (load_fastf1_session fetch).1 = none →
            ∃ e, fetch = Except.error e
              ∧ (load_fastf1_session fetch).2 = some (error_message e) := by
  refine ⟨rfl, fun h => hne (error_message_inj h), ?_⟩
  intro fetch h
  cases fetch with
  | ok s => simp [load_fastf1_session] at h
  | error e => exact ⟨e, rfl, rfl⟩

/-- Witness for C8 at two concrete failure reasons, a provider timeout and an
unsupported session kind. -/
theorem load_session_failure_handling_witness :
    load_fastf1_session (Except.error "connection timeout")
        = (none, some (error_message "connection timeout"))
      ∧ error_message "connection timeout"
        ≠ error_message "no Sprint session for this event" :=
  ⟨(load_session_failure_handling "connection timeout"
      "no Sprint session for this event" (by decide)).1,
   (load_session_failure_handling "connection timeout"
      "no Sprint session for this event" (by decide)).2.1⟩

/-- Driver selection `session_obj.laps.pick_driver(d)` of dashboard.py
lines 160 and 213: the laps of one driver, from the session's own lap
table. -/
def pick_driver (d : String) (laps : List Lap) : List Lap :=
  laps.filter (fun l => l.driver == d)

/-- Render model produced by one pipeline run: the sorted on-screen lap
table, the exported CSV rows, the telemetry driver's laps (line 160) and the
two comparison lap sets (lines 213-214). -/
structure RenderModel where
  displayed : List Lap
  exported : List (List String)
  telemetryDriverLaps : List Lap
  comparisonLapsA : List Lap
  comparisonLapsB : List Lap

/-- One pipeline run over a loaded session, following dashboard.py: line 119
copies the session lap table (`session_obj.laps.copy()`), lines 120-121
filter the copy by the driver query, line 129 sorts it for display, line 132
exports it, while lines 160 and 213-214 go back to `session_obj.laps` for
telemetry and comparison.  The session is returned alongside the render model
to expose its final state. -/
def run_pipeline (sess : Session)
    (driverQ lapFilterMode tyreChoice telDriver d1 d2 : String) :
    Session × RenderModel :=
  let laps := filtered_laps sess.laps driverQ lapFilterMode tyreChoice
  (sess,
    { displayed := sort_values_lapTime laps
      exported := exported_rows laps
      telemetryDriverLaps := pick_driver telDriver sess.laps
      comparisonLapsA := pick_driver d1 sess.laps
      comparisonLapsB := pick_driver d2 sess.laps })

/-- C9: a pipeline run leaves the session's lap table unchanged, and the
downstream stages that re-read the session — telemetry driver selection and
the two-driver comparison — see the original unfiltered laps: their outputs
are computed from the session laps and do not depend on the filter
selections. -/
theorem pipeline_session_unchanged (sess : Session)
    (q m t q2 m2 t2 telDriver d1 d2 : String) :
    (run_pipeline sess q m t telDriver d1 d2).1 = sess
      ∧ (run_pipeline sess q m t telDriver d1 d2).2.telemetryDriverLaps
          = pick_driver telDriver sess.laps
      ∧ (run_pipeline sess q m t telDriver d1 d2).2.telemetryDriverLaps
          = (run_pipeline sess q2 m2 t2 telDriver d1 d2).2.telemetryDriverLaps
      ∧ (run_pipeline sess q m t telDriver d1 d2).2.comparisonLapsA
          = (run_pipeline sess q2 m2 t2 telDriver d1 d2).2.comparisonLapsA
      ∧ (run_pipeline sess q m t telDriver d1 d2).2.comparisonLapsB
          = (run_pipeline sess q2 m2 t2 telDriver d1 d2).2.comparisonLapsB :=
  ⟨rfl, rfl, rfl, rfl, rfl⟩

end F1InsightX
